import Mathlib

/-!
Shallow embedding of the script src/add_view_subtasks.py.

The script loads a JSON document from the fixed path
.taskmaster/tasks/tasks.json, scans the top-level task list for the first
task whose id equals 20, scans that task's subtask list for the first
subtask whose id equals 13, and, if found, overwrites that subtask's
own subtask list with nine hard-coded records, additionally assigns the
(mutated, aliased) record at hard-coded index 12 of the parent's subtask
list, and writes the whole document back with indent 2.  If the search
fails it prints an error and exits with status 1 without writing.

Python dicts loaded from JSON are modelled as Lean structures following
the document schema; the in-place mutation through the alias task_20_13
is modelled by functional updates at the recorded positions.
-/

namespace AddViewSubtasks

/-- A subtask record: an id, the textual fields, the dependency list, and
an optional nested list of subtask records (the key that line 126 of the
script assigns).  Recursive because a subtask may itself carry subtasks. -/
inductive Subtask : Type where
  | mk (id : Int) (title : String) (description : String) (status : String)
       (priority : String) (dependencies : List Int) (details : String)
       (testStrategy : String) (subtasks : Option (List Subtask)) : Subtask

def Subtask.id : Subtask → Int
  | .mk i _ _ _ _ _ _ _ _ => i

def Subtask.title : Subtask → String
  | .mk _ t _ _ _ _ _ _ _ => t

def Subtask.description : Subtask → String
  | .mk _ _ d _ _ _ _ _ _ => d

def Subtask.status : Subtask → String
  | .mk _ _ _ s _ _ _ _ _ => s

def Subtask.priority : Subtask → String
  | .mk _ _ _ _ p _ _ _ _ => p

def Subtask.dependencies : Subtask → List Int
  | .mk _ _ _ _ _ d _ _ _ => d

def Subtask.details : Subtask → String
  | .mk _ _ _ _ _ _ d _ _ => d

def Subtask.testStrategy : Subtask → String
  | .mk _ _ _ _ _ _ _ t _ => t

def Subtask.subtasks : Subtask → Option (List Subtask)
  | .mk _ _ _ _ _ _ _ _ s => s

/-- The assignment on line 126 of the script:
task_20_13 subtasks key set to new_subtasks.  All other keys are kept. -/
def Subtask.setSubtasks : Subtask → Option (List Subtask) → Subtask
  | .mk i t d s p dep det ts _, ns => .mk i t d s p dep det ts ns

/-- A top-level task record: an integer id and an optional subtask list
(the script reads it with task.get, defaulting to the empty list). -/
structure Task where
  id : Int
  subtasks : Option (List Subtask)

/-- The persisted document: the top-level ordered sequence under the
tasks key that the script iterates over. -/
structure Document where
  tasks : List Task

/-- Lines 18-19 and 25 of the script: the outer loop breaks at the first
task whose id equals 20, whether or not the inner search succeeded.
Returns that task together with its position. -/
def findTask20 : List Task → Option (Nat × Task)
  | [] => none
  | t :: rest =>
    if t.id = 20 then some (0, t)
    else (findTask20 rest).map (fun p => (p.1 + 1, p.2))

/-- Lines 20-24 of the script: the inner loop breaks at the first subtask
whose id equals 13.  Returns that subtask together with its position
(the position is implicit in Python through the aliased dict). -/
def findSub13 : List Subtask → Option (Nat × Subtask)
  | [] => none
  | s :: rest =>
    if s.id = 13 then some (0, s)
    else (findSub13 rest).map (fun p => (p.1 + 1, p.2))

/-- Lines 14-25 of the script: locate task 20.13.  Yields the index of
the first id-20 task, that task, the index of the first id-13 subtask
inside it, and that subtask; none when the search fails (task_20_13
stays None, which is falsy, as is an id-20 task with no subtasks key,
whose get defaults to the empty list). -/
def locate (tasks : List Task) : Option (Nat × Task × Nat × Subtask) :=
  match findTask20 tasks with
  | none => none
  | some (i, t) =>
    match findSub13 (t.subtasks.getD []) with
    | none => none
    | some (j, s) => some (i, t, j, s)

/-- Lines 32-123 of the script: the literal list new_subtasks of nine
records, transcribed field by field.  The Python dicts carry no subtasks
key, hence the none in the last field. -/
def newSubtasks : List Subtask :=
  [ Subtask.mk 1 "View Switching Infrastructure"
      "Create ViewSwitcher component in DatabaseToolbar and add view state management"
      "pending" "high" []
      "Create ViewSwitcher component in DatabaseToolbar, add view state management to useDatabaseBlock hook, implement view persistence in database. This provides the foundation for switching between different view types."
      "Test view switching functionality, verify state persistence, test view transitions"
      none,
    Subtask.mk 2 "View-Specific Filtering UI"
      "Create ViewFilters component with grouping UI and date range picker"
      "pending" "high" [1]
      "Create ViewFilters component for view-specific filter options, add grouping UI for kanban/calendar views, implement date range picker for calendar/timeline views."
      "Test filter UI responsiveness, verify grouping functionality, test date range selection"
      none,
    Subtask.mk 3 "Drag & Drop Infrastructure"
      "Install and setup @dnd-kit with reusable drag utilities"
      "pending" "high" []
      "Install @dnd-kit/core and @dnd-kit/sortable, create reusable DragContext and drag utilities, implement drag overlay and collision detection for smooth drag operations."
      "Test drag and drop functionality, verify collision detection, test performance with many draggable items"
      none,
    Subtask.mk 4 "Gallery View Implementation"
      "Create DatabaseGallery component with virtual grid and card display"
      "pending" "medium" [1]
      "Create DatabaseGallery component with virtual grid using react-window, implement card-based display with cover images, add gallery-specific toolbar and settings."
      "Test virtual scrolling with 50k+ cards, verify image loading performance, test responsive grid layout"
      none,
    Subtask.mk 5 "Kanban View Implementation"
      "Create DatabaseKanban with drag-drop between columns"
      "pending" "medium" [1, 3]
      "Create DatabaseKanban component with virtual columns, implement drag-and-drop between columns using @dnd-kit, add column management (add/edit/delete columns)."
      "Test drag-drop between columns, verify performance with many cards, test column management operations"
      none,
    Subtask.mk 6 "Calendar View Implementation"
      "Create DatabaseCalendar with month/week/day views"
      "pending" "medium" [1, 2]
      "Create DatabaseCalendar component with month/week/day views, implement date navigation and event display, add calendar-specific date filtering and event management."
      "Test view switching (month/week/day), verify event rendering, test date navigation performance"
      none,
    Subtask.mk 7 "Timeline View Implementation"
      "Create DatabaseTimeline with horizontal scrolling"
      "pending" "medium" [1, 2]
      "Create DatabaseTimeline component with horizontal scrolling, implement timeline navigation and zoom controls, add timeline-specific date range filtering."
      "Test horizontal scrolling performance, verify zoom functionality, test with large date ranges"
      none,
    Subtask.mk 8 "View Performance Optimization"
      "Implement view-specific optimizations and transitions"
      "pending" "high" [4, 5, 6, 7]
      "Implement view-specific virtual scrolling optimizations, add view transition animations and loading states, optimize data fetching for each view type to handle 50k+ records."
      "Benchmark performance with 50k+ records, measure view transition times, profile memory usage"
      none,
    Subtask.mk 9 "View Testing & Integration"
      "Create comprehensive test suite for all views"
      "pending" "high" [8]
      "Create comprehensive test suite for all views, test 50k+ record performance across all views, integration testing with existing database features (formulas, filtering, sorting)."
      "Run performance benchmarks, verify data consistency across views, test mobile responsiveness"
      none ]

/-- The three ways a run can end: the not-found error exit on line 29,
an uncaught IndexError from the assignment on line 129 when the parent
subtask list has no index 12, or success with the final document. -/
inductive RunResult where
  | notFound : RunResult
  | indexError : RunResult
  | success : Document → RunResult

/-- Lines 125-133 of the script.  On a successful locate, line 126
mutates the found subtask (aliased at position j of the parent's list)
by overwriting its subtasks key with new_subtasks, and line 129 assigns
the same mutated record at hard-coded index 12; Python raises IndexError
there unless the list has more than 12 elements.  The mutations through
the alias are modelled as functional list updates at j and 12. -/
def run (d : Document) : RunResult :=
  match locate d.tasks with
  | none => RunResult.notFound
  | some (i, t, j, s) =>
    let s' := s.setSubtasks (some newSubtasks)
    let subs := (t.subtasks.getD []).set j s'
    if 12 < subs.length then
      RunResult.success ⟨d.tasks.set i { t with subtasks := some (subs.set 12 s') }⟩
    else RunResult.indexError

/-- Line 10 of the script: the fixed path the document is read from and
written to. -/
def tasks_file : String := ".taskmaster/tasks/tasks.json"

/-- Line 28 of the script: printed on the not-found path. -/
def errorOutput : List String := ["Error: Task 20.13 not found"]

/-- Lines 137-139 of the script: the per-record summary line, with the
dependency annotation only when the dependency list is truthy
(non-empty). -/
def subtaskLine (s : Subtask) : String :=
  let deps :=
    if s.dependencies.isEmpty then ""
    else " (depends on: " ++ String.intercalate ", " (s.dependencies.map toString) ++ ")"
  "  20.13." ++ toString s.id ++ " - " ++ s.title ++ deps

/-- Lines 135-139 of the script: the success banner, a print that starts
with a blank line, then one line per record of new_subtasks. -/
def successOutput : List String :=
  "✅ Successfully added 9 subtasks to Task 20.13" ::
  "\nSubtasks added:" :: newSubtasks.map subtaskLine

/-- Everything the program prints to stdout: the error line on the
not-found path, nothing when the IndexError aborts before the prints,
the success banner and nine summary lines on success. -/
def outputOf (d : Document) : List String :=
  match run d with
  | RunResult.notFound => errorOutput
  | RunResult.indexError => []
  | RunResult.success _ => successOutput

/-- The process exit status: 1 from exit(1) on the not-found path, 1
from the uncaught IndexError, 0 on success. -/
def exitCodeOf (d : Document) : Nat :=
  match run d with
  | RunResult.success _ => 0
  | _ => 1

/-- The contents of the tasks file after the run: rewritten only on the
success path (both error paths stop before the write on lines 132-133). -/
def finalFile (d : Document) : Document :=
  match run d with
  | RunResult.success d' => d'
  | _ => d

/-- A file-system event: a read of a path, or a write of a whole
document to a path with the given JSON indent width. -/
inductive FileOp where
  | read : String → FileOp
  | write : String → Document → Nat → FileOp

/-- The file operations the script performs, in order: one read of the
fixed path (lines 11-12), and, only on success, one write of the full
final document to the same path with indent 2 (lines 132-133). -/
def traceOf (d : Document) : List FileOp :=
  match run d with
  | RunResult.success d' => [FileOp.read tasks_file, FileOp.write tasks_file d' 2]
  | _ => [FileOp.read tasks_file]

/-! Small list lemmas about get? and set, proved here by induction. -/

theorem getq_lt {α : Type} {l : List α} {n : Nat} {a : α}
    (h : l.get? n = some a) : n < l.length := by
  induction l generalizing n with
  | nil => simp [List.get?] at h
  | cons x xs ih =>
    cases n with
    | zero => simp
    | succ m =>
      simp only [List.get?] at h
      have := ih h
      simp only [List.length]
      omega

theorem getq_set_self {α : Type} {l : List α} {n : Nat} (a : α)
    (h : n < l.length) : (l.set n a).get? n = some a := by
  induction l generalizing n with
  | nil => simp at h
  | cons x xs ih =>
    cases n with
    | zero => rfl
    | succ m =>
      simp only [List.set, List.get?]
      exact ih (by simp at h; omega)

theorem getq_set_ne {α : Type} (l : List α) (n m : Nat) (a : α)
    (h : n ≠ m) : (l.set n a).get? m = l.get? m := by
  induction l generalizing n m with
  | nil => rfl
  | cons x xs ih =>
    cases n with
    | zero =>
      cases m with
      | zero => exact absurd rfl h
      | succ k => rfl
    | succ n' =>
      cases m with
      | zero => rfl
      | succ k =>
        simp only [List.set, List.get?]
        exact ih n' k (by omega)

theorem set_of_getq {α : Type} {l : List α} {n : Nat} {a : α}
    (h : l.get? n = some a) : l.set n a = l := by
  induction l generalizing n with
  | nil => rfl
  | cons x xs ih =>
    cases n with
    | zero =>
      simp only [List.get?] at h
      cases h
      rfl
    | succ m =>
      simp only [List.get?] at h
      simp [List.set, ih h]

/-! Projection lemmas for the functional model of line 126's mutation. -/

theorem setSubtasks_id (s : Subtask) (x : Option (List Subtask)) :
    (s.setSubtasks x).id = s.id := by cases s; rfl

theorem setSubtasks_title (s : Subtask) (x : Option (List Subtask)) :
    (s.setSubtasks x).title = s.title := by cases s; rfl

theorem setSubtasks_description (s : Subtask) (x : Option (List Subtask)) :
    (s.setSubtasks x).description = s.description := by cases s; rfl

theorem setSubtasks_status (s : Subtask) (x : Option (List Subtask)) :
    (s.setSubtasks x).status = s.status := by cases s; rfl

theorem setSubtasks_priority (s : Subtask) (x : Option (List Subtask)) :
    (s.setSubtasks x).priority = s.priority := by cases s; rfl

theorem setSubtasks_dependencies (s : Subtask) (x : Option (List Subtask)) :
    (s.setSubtasks x).dependencies = s.dependencies := by cases s; rfl

theorem setSubtasks_details (s : Subtask) (x : Option (List Subtask)) :
    (s.setSubtasks x).details = s.details := by cases s; rfl

theorem setSubtasks_testStrategy (s : Subtask) (x : Option (List Subtask)) :
    (s.setSubtasks x).testStrategy = s.testStrategy := by cases s; rfl

theorem setSubtasks_subtasks (s : Subtask) (x : Option (List Subtask)) :
    (s.setSubtasks x).subtasks = x := by cases s; rfl

theorem setSubtasks_setSubtasks (s : Subtask) (x y : Option (List Subtask)) :
    (s.setSubtasks x).setSubtasks y = s.setSubtasks y := by cases s; rfl

/-! Characterizations of the two search loops. -/

/-- What a successful outer search means: the task sits at the returned
index, its id is 20, and no earlier task has id 20. -/
theorem findTask20_spec {l : List Task} {i : Nat} {t : Task}
    (h : findTask20 l = some (i, t)) :
    l.get? i = some t ∧ t.id = 20 ∧
      ∀ k, k < i → ∀ u, l.get? k = some u → u.id ≠ 20 := by
  induction l generalizing i with
  | nil => simp [findTask20] at h
  | cons x xs ih =>
    by_cases hx : x.id = 20
    · simp only [findTask20, if_pos hx, Option.some.injEq, Prod.mk.injEq] at h
      obtain ⟨hi, ht⟩ := h
      subst hi; subst ht
      refine ⟨rfl, hx, ?_⟩
      intro k hk
      omega
    · simp only [findTask20, if_neg hx] at h
      cases hfx : findTask20 xs with
      | none => rw [hfx] at h; simp at h
      | some p =>
        obtain ⟨i', t'⟩ := p
        rw [hfx] at h
        simp only [Option.map_some', Option.some.injEq, Prod.mk.injEq] at h
        obtain ⟨hi, ht⟩ := h
        subst ht
        obtain ⟨hg, hid, hprev⟩ := ih hfx
        subst hi
        refine ⟨hg, hid, ?_⟩
        intro k hk u hu
        cases k with
        | zero =>
          simp only [List.get?, Option.some.injEq] at hu
          subst hu; exact hx
        | succ k' =>
          exact hprev k' (by omega) u hu

/-- Converse: a task at index i with id 20 and only non-20 ids before it
is what the outer loop returns. -/
theorem findTask20_of_spec {l : List Task} {i : Nat} {t : Task}
    (hg : l.get? i = some t) (ht : t.id = 20)
    (hprev : ∀ k, k < i → ∀ u, l.get? k = some u → u.id ≠ 20) :
    findTask20 l = some (i, t) := by
  induction l generalizing i with
  | nil => exact absurd (getq_lt hg) (by simp)
  | cons x xs ih =>
    cases i with
    | zero =>
      simp only [List.get?, Option.some.injEq] at hg
      subst hg
      simp [findTask20, ht]
    | succ i' =>
      have hx : x.id ≠ 20 := hprev 0 (by omega) x rfl
      simp only [List.get?] at hg
      have := ih hg (fun k hk u hu => hprev (k + 1) (by omega) u hu)
      simp [findTask20, hx, this]

/-- The outer loop over a list that starts with non-20 tasks followed by
an id-20 task stops at that task, whatever comes after it. -/
theorem findTask20_append (pre post : List Task) (t1 : Task)
    (hpre : ∀ u, u ∈ pre → u.id ≠ 20) (h1 : t1.id = 20) :
    findTask20 (pre ++ t1 :: post) = some (pre.length, t1) := by
  induction pre with
  | nil => simp [findTask20, h1]
  | cons x xs ih =>
    have hx : x.id ≠ 20 := hpre x (List.mem_cons_self x xs)
    have := ih (fun u hu => hpre u (List.mem_cons_of_mem x hu))
    simp [findTask20, hx, this]

/-- What a successful inner search means: the subtask sits at the
returned index, its id is 13, and no earlier subtask has id 13. -/
theorem findSub13_spec {l : List Subtask} {j : Nat} {s : Subtask}
    (h : findSub13 l = some (j, s)) :
    l.get? j = some s ∧ s.id = 13 ∧
      ∀ k, k < j → ∀ u, l.get? k = some u → u.id ≠ 13 := by
  induction l generalizing j with
  | nil => simp [findSub13] at h
  | cons x xs ih =>
    by_cases hx : x.id = 13
    · simp only [findSub13, if_pos hx, Option.some.injEq, Prod.mk.injEq] at h
      obtain ⟨hj, hs⟩ := h
      subst hj; subst hs
      refine ⟨rfl, hx, ?_⟩
      intro k hk
      omega
    · simp only [findSub13, if_neg hx] at h
      cases hfx : findSub13 xs with
      | none => rw [hfx] at h; simp at h
      | some p =>
        obtain ⟨j', s'⟩ := p
        rw [hfx] at h
        simp only [Option.map_some', Option.some.injEq, Prod.mk.injEq] at h
        obtain ⟨hj, hs⟩ := h
        subst hs
        obtain ⟨hg, hid, hprev⟩ := ih hfx
        subst hj
        refine ⟨hg, hid, ?_⟩
        intro k hk u hu
        cases k with
        | zero =>
          simp only [List.get?, Option.some.injEq] at hu
          subst hu; exact hx
        | succ k' =>
          exact hprev k' (by omega) u hu

/-- Converse: a subtask at index j with id 13 and only non-13 ids before
it is what the inner loop returns. -/
theorem findSub13_of_spec {l : List Subtask} {j : Nat} {s : Subtask}
    (hg : l.get? j = some s) (hs : s.id = 13)
    (hprev : ∀ k, k < j → ∀ u, l.get? k = some u → u.id ≠ 13) :
    findSub13 l = some (j, s) := by
  induction l generalizing j with
  | nil => exact absurd (getq_lt hg) (by simp)
  | cons x xs ih =>
    cases j with
    | zero =>
      simp only [List.get?, Option.some.injEq] at hg
      subst hg
      simp [findSub13, hs]
    | succ j' =>
      have hx : x.id ≠ 13 := hprev 0 (by omega) x rfl
      simp only [List.get?] at hg
      have := ih hg (fun k hk u hu => hprev (k + 1) (by omega) u hu)
      simp [findSub13, hx, this]

/-- A list holding an id-13 subtask somewhere makes the inner search
succeed. -/
theorem findSub13_isSome {l : List Subtask} {m : Nat} {a : Subtask}
    (h : l.get? m = some a) (ha : a.id = 13) :
    ∃ j s, findSub13 l = some (j, s) := by
  induction l generalizing m with
  | nil => simp [List.get?] at h
  | cons x xs ih =>
    by_cases hx : x.id = 13
    · exact ⟨0, x, by simp [findSub13, hx]⟩
    · cases m with
      | zero =>
        simp only [List.get?, Option.some.injEq] at h
        subst h
        exact absurd ha hx
      | succ m' =>
        simp only [List.get?] at h
        obtain ⟨j, s, hf⟩ := ih h
        exact ⟨j + 1, s, by simp [findSub13, hx, hf]⟩

/-- A list with no id-13 subtask makes the inner search fail. -/
theorem findSub13_eq_none {l : List Subtask}
    (h : ∀ s, s ∈ l → s.id ≠ 13) : findSub13 l = none := by
  induction l with
  | nil => rfl
  | cons x xs ih =>
    have hx : x.id ≠ 13 := h x (List.mem_cons_self x xs)
    have := ih (fun s hs => h s (List.mem_cons_of_mem x hs))
    simp [findSub13, hx, this]

/-! Characterizations of locate and run. -/

/-- Decomposition of a successful locate into the two loop searches; the
subtasks key of the found task is necessarily present. -/
theorem locate_spec {tasks : List Task} {i : Nat} {t : Task} {j : Nat} {s : Subtask}
    (h : locate tasks = some (i, t, j, s)) :
    findTask20 tasks = some (i, t) ∧
      findSub13 (t.subtasks.getD []) = some (j, s) ∧
      t.subtasks = some (t.subtasks.getD []) := by
  unfold locate at h
  cases hT : findTask20 tasks with
  | none => rw [hT] at h; simp at h
  | some p =>
    obtain ⟨i', t'⟩ := p
    rw [hT] at h
    dsimp only at h
    cases hS : findSub13 (t'.subtasks.getD []) with
    | none => rw [hS] at h; simp at h
    | some q =>
      obtain ⟨j', s₀⟩ := q
      rw [hS] at h
      simp only [Option.some.injEq, Prod.mk.injEq] at h
      obtain ⟨hi, ht, hj, hs⟩ := h
      subst hi; subst ht; subst hj; subst hs
      refine ⟨rfl, hS, ?_⟩
      cases hsub : t'.subtasks with
      | none =>
        rw [hsub] at hS
        simp [findSub13] at hS
      | some l => simp [hsub]

/-- Assembling a locate result from the two loop searches. -/
theorem locate_eq {tasks : List Task} {i : Nat} {t : Task} {j : Nat} {s : Subtask}
    (hT : findTask20 tasks = some (i, t))
    (hS : findSub13 (t.subtasks.getD []) = some (j, s)) :
    locate tasks = some (i, t, j, s) := by
  unfold locate
  rw [hT]
  dsimp only
  rw [hS]

/-- The not-found exit happens exactly when locate fails. -/
theorem run_notFound_iff (d : Document) :
    run d = RunResult.notFound ↔ locate d.tasks = none := by
  unfold run
  cases hl : locate d.tasks with
  | none => simp
  | some p =>
    obtain ⟨i, t, j, s⟩ := p
    simp only [Option.some.injEq]
    constructor
    · intro h
      split at h <;> simp at h
    · intro h
      simp at h

/-- The mutated subtask of lines 126-129: the found record with its
subtasks key overwritten by the nine new records. -/
def mutated (s : Subtask) : Subtask := s.setSubtasks (some newSubtasks)

/-- The parent's subtask list after lines 126 and 129: the mutation
through the alias at position j, then the assignment at index 12. -/
def editedSubs (l : List Subtask) (j : Nat) (s : Subtask) : List Subtask :=
  (l.set j (mutated s)).set 12 (mutated s)

/-- The whole document a successful run writes back. -/
def successDoc (d : Document) (i : Nat) (t : Task) (j : Nat) (s : Subtask) : Document :=
  ⟨d.tasks.set i { t with subtasks := some (editedSubs (t.subtasks.getD []) j s) }⟩

/-- The document a successful run produces, written out explicitly. -/
theorem run_success_eq {d : Document} {i : Nat} {t : Task} {j : Nat} {s : Subtask}
    (h : locate d.tasks = some (i, t, j, s))
    (hlen : 12 < (t.subtasks.getD []).length) :
    run d = RunResult.success (successDoc d i t j s) := by
  unfold run
  rw [h]
  simp only [List.length_set]
  rw [if_pos hlen]
  rfl

/-- Inversion: a successful run pins down the locate result, the length
bound that line 129 needs, and the final document. -/
theorem run_success_inv {d : Document} {d' : Document}
    (h : run d = RunResult.success d') :
    ∃ i t j s, locate d.tasks = some (i, t, j, s) ∧
      12 < (t.subtasks.getD []).length ∧
      d' = successDoc d i t j s := by
  unfold run at h
  cases hl : locate d.tasks with
  | none => rw [hl] at h; simp at h
  | some p =>
    obtain ⟨i, t, j, s⟩ := p
    rw [hl] at h
    simp only [List.length_set] at h
    by_cases hlen : 12 < (t.subtasks.getD []).length
    · rw [if_pos hlen] at h
      cases h
      exact ⟨i, t, j, s, rfl, hlen, rfl⟩
    · rw [if_neg hlen] at h
      simp at h

/-! Shape of the edited subtask list. -/

theorem editedSubs_length (l : List Subtask) (j : Nat) (s : Subtask) :
    (editedSubs l j s).length = l.length := by
  simp [editedSubs]

theorem editedSubs_get_12 {l : List Subtask} (j : Nat) (s : Subtask)
    (h12 : 12 < l.length) : (editedSubs l j s).get? 12 = some (mutated s) := by
  unfold editedSubs
  exact getq_set_self _ (by simpa using h12)

theorem editedSubs_get_j {l : List Subtask} {j : Nat} (s : Subtask)
    (hj : j < l.length) (h12 : 12 < l.length) :
    (editedSubs l j s).get? j = some (mutated s) := by
  by_cases hej : j = 12
  · subst hej
    exact editedSubs_get_12 12 s h12
  · unfold editedSubs
    rw [getq_set_ne _ 12 j _ (fun hc => hej hc.symm)]
    exact getq_set_self _ (by simpa using hj)

theorem editedSubs_get_other {l : List Subtask} {j : Nat} {s : Subtask} {k : Nat}
    (hkj : k ≠ j) (hk12 : k ≠ 12) :
    (editedSubs l j s).get? k = l.get? k := by
  unfold editedSubs
  rw [getq_set_ne _ 12 k _ (fun hc => hk12 hc.symm),
    getq_set_ne _ j k _ (fun hc => hkj hc.symm)]

theorem set_set' {α : Type} (l : List α) (n : Nat) (a b : α) :
    (l.set n a).set n b = l.set n b := by
  induction l generalizing n with
  | nil => rfl
  | cons x xs ih =>
    cases n with
    | zero => rfl
    | succ m => simp [List.set, ih]

theorem Document.eq_of_tasks {a b : Document} (h : a.tasks = b.tasks) : a = b := by
  cases a; cases b; cases h; rfl

theorem mutated_id (s : Subtask) : (mutated s).id = s.id := setSubtasks_id s _

theorem mutated_mutated (s : Subtask) : mutated (mutated s) = mutated s :=
  setSubtasks_setSubtasks s _ _

theorem successDoc_tasks (d : Document) (i : Nat) (t : Task) (j : Nat) (s : Subtask) :
    (successDoc d i t j s).tasks =
      d.tasks.set i { t with subtasks := some (editedSubs (t.subtasks.getD []) j s) } :=
  rfl

/-- Rerunning the program on the document a successful run produced
finds the mutated record again (at the smaller of the two written
positions) and writes back the very same document. -/
theorem run_idem {d d' : Document} (h : run d = RunResult.success d') :
    run d' = RunResult.success d' := by
  obtain ⟨i, t, j, s, hloc, hlen, hd⟩ := run_success_inv h
  subst hd
  obtain ⟨hT, hS, hsome⟩ := locate_spec hloc
  obtain ⟨hgi, ht20, hprev20⟩ := findTask20_spec hT
  obtain ⟨hgj, hs13, hprev13⟩ := findSub13_spec hS
  have hilt : i < d.tasks.length := getq_lt hgi
  have hjlt : j < (t.subtasks.getD []).length := getq_lt hgj
  have hgm : (editedSubs (t.subtasks.getD []) j s).get? (min j 12) = some (mutated s) := by
    by_cases hj12 : j ≤ 12
    · have hmj : min j 12 = j := by omega
      rw [hmj]
      exact editedSubs_get_j s hjlt hlen
    · have hmj : min j 12 = 12 := by omega
      rw [hmj]
      exact editedSubs_get_12 j s hlen
  have hT2 : findTask20 (successDoc d i t j s).tasks =
      some (i, { t with subtasks := some (editedSubs (t.subtasks.getD []) j s) }) := by
    apply findTask20_of_spec
    · rw [successDoc_tasks]
      exact getq_set_self _ hilt
    · exact ht20
    · intro k hk u hu
      rw [successDoc_tasks, getq_set_ne _ i k _ (by omega)] at hu
      exact hprev20 k hk u hu
  have hS2 : findSub13 (editedSubs (t.subtasks.getD []) j s) =
      some (min j 12, mutated s) := by
    apply findSub13_of_spec hgm
    · rw [mutated_id]
      exact hs13
    · intro k hk u hu
      have hkj : k ≠ j := by omega
      have hk12 : k ≠ 12 := by omega
      rw [editedSubs_get_other hkj hk12] at hu
      exact hprev13 k (by omega) u hu
  have hloc2 : locate (successDoc d i t j s).tasks =
      some (i, { t with subtasks := some (editedSubs (t.subtasks.getD []) j s) },
        min j 12, mutated s) :=
    locate_eq hT2 hS2
  have hlen2 : 12 <
      (({ t with subtasks := some (editedSubs (t.subtasks.getD []) j s)} : Task).subtasks.getD []).length := by
    show 12 < (editedSubs (t.subtasks.getD []) j s).length
    rw [editedSubs_length]
    exact hlen
  have hrun2 := run_success_eq hloc2 hlen2
  rw [hrun2]
  congr 1
  apply Document.eq_of_tasks
  rw [successDoc_tasks, successDoc_tasks]
  have hsubsD : (({ t with subtasks := some (editedSubs (t.subtasks.getD []) j s) } : Task).subtasks.getD [])
      = editedSubs (t.subtasks.getD []) j s := rfl
  rw [hsubsD]
  have hE : editedSubs (editedSubs (t.subtasks.getD []) j s) (min j 12) (mutated s)
      = editedSubs (t.subtasks.getD []) j s := by
    show ((editedSubs (t.subtasks.getD []) j s).set (min j 12)
        (mutated (mutated s))).set 12 (mutated (mutated s))
      = editedSubs (t.subtasks.getD []) j s
    rw [mutated_mutated, set_of_getq hgm]
    exact set_of_getq (editedSubs_get_12 j s hlen)
  rw [hE, set_set']

/-! Concrete documents used to instantiate the theorems that carry
hypotheses, and to exhibit counterexamples. -/

/-- A filler subtask whose id is neither 13 nor anything special. -/
def padSub : Subtask :=
  Subtask.mk 99 "pad" "pad" "pending" "low" [] "pad" "pad" none

/-- A subtask with id 13, as the script expects to find under task 20. -/
def sub13 : Subtask :=
  Subtask.mk 13 "Database Block Advanced Views" "views" "pending" "high" []
    "details" "strategy" (some [])

/-- Thirteen subtasks with the id-13 record at position 12. -/
def subsAt12 : List Subtask := List.replicate 12 padSub ++ [sub13]

/-- Thirteen subtasks with the id-13 record at position 0. -/
def subsAt0 : List Subtask := sub13 :: List.replicate 12 padSub

/-- A document on which the run succeeds: a filler task, then task 20
with subtask 13 at position 12. -/
def docOK : Document := ⟨[⟨7, none⟩, ⟨20, some subsAt12⟩]⟩

/-- A document on which the run succeeds with the id-13 record at
position 0 rather than 12. -/
def docJ0 : Document := ⟨[⟨20, some subsAt0⟩]⟩

/-- Two tasks with id 20: the first lacks a subtask 13, the second holds
one at position 12.  The outer loop stops at the first. -/
def docDup : Document := ⟨[⟨20, some [padSub]⟩, ⟨20, some subsAt12⟩]⟩

/-- A document with no task 20 at all. -/
def docNo20 : Document := ⟨[⟨7, none⟩, ⟨21, some subsAt12⟩]⟩

/-! The claims. -/

/-- C2: for every document on which the search for task 20.13 fails, the
program prints the error line, terminates with a non-zero status, and
halts before any mutation or write: the file trace holds only the read
and the final file contents equal the input document. -/
theorem C2_notFound_no_write (d : Document) (h : locate d.tasks = none) :
    run d = RunResult.notFound ∧
    outputOf d = ["Error: Task 20.13 not found"] ∧
    exitCodeOf d = 1 ∧
    finalFile d = d ∧
    traceOf d = [FileOp.read tasks_file] := by
  have hr : run d = RunResult.notFound := (run_notFound_iff d).2 h
  exact ⟨hr, by simp [outputOf, hr, errorOutput], by simp [exitCodeOf, hr],
    by simp [finalFile, hr], by simp [traceOf, hr]⟩

/-- C2 witness: the concrete document with no task 20 takes the error
path and is left unmodified. -/
theorem C2_witness :
    locate docNo20.tasks = none ∧
    (run docNo20 = RunResult.notFound ∧
     outputOf docNo20 = ["Error: Task 20.13 not found"] ∧
     exitCodeOf docNo20 = 1 ∧
     finalFile docNo20 = docNo20 ∧
     traceOf docNo20 = [FileOp.read tasks_file]) :=
  ⟨rfl, C2_notFound_no_write docNo20 rfl⟩

/-- C9: the outer loop exits after the first task whose id is 20,
whatever it finds there, so when that task lacks a subtask 13 the run
takes the not-found error path no matter what the remaining tasks (post)
hold, even a task with id 20 that does contain a subtask 13. -/
theorem C9_first_id20_shadows (pre post : List Task) (t1 : Task)
    (hpre : ∀ u, u ∈ pre → u.id ≠ 20) (h1 : t1.id = 20)
    (hno : ∀ s, s ∈ t1.subtasks.getD [] → s.id ≠ 13) :
    run ⟨pre ++ t1 :: post⟩ = RunResult.notFound ∧
    outputOf ⟨pre ++ t1 :: post⟩ = ["Error: Task 20.13 not found"] ∧
    exitCodeOf ⟨pre ++ t1 :: post⟩ = 1 ∧
    finalFile ⟨pre ++ t1 :: post⟩ = ⟨pre ++ t1 :: post⟩ := by
  have hT := findTask20_append pre post t1 hpre h1
  have hS := findSub13_eq_none hno
  have hl : locate (Document.mk (pre ++ t1 :: post)).tasks = none := by
    show locate (pre ++ t1 :: post) = none
    unfold locate
    rw [hT]
    dsimp only
    rw [hS]
  have hr : run ⟨pre ++ t1 :: post⟩ = RunResult.notFound := (run_notFound_iff _).2 hl
  exact ⟨hr, by simp [outputOf, hr, errorOutput], by simp [exitCodeOf, hr],
    by simp [finalFile, hr]⟩

/-- C9 witness: a first id-20 task without subtask 13 shadows a later
id-20 task that holds subtask 13 at position 12; the run errors out. -/
theorem C9_witness :
    (∀ u, u ∈ ([] : List Task) → u.id ≠ 20) ∧
    (Task.mk 20 (some [padSub])).id = 20 ∧
    (∀ s, s ∈ (Task.mk 20 (some [padSub])).subtasks.getD [] → s.id ≠ 13) ∧
    (∃ u, u ∈ [Task.mk 20 (some subsAt12)] ∧ u.id = 20 ∧
      ∃ s, s ∈ u.subtasks.getD [] ∧ s.id = 13) ∧
    (run ⟨[] ++ Task.mk 20 (some [padSub]) :: [Task.mk 20 (some subsAt12)]⟩ = RunResult.notFound ∧
     outputOf ⟨[] ++ Task.mk 20 (some [padSub]) :: [Task.mk 20 (some subsAt12)]⟩ = ["Error: Task 20.13 not found"] ∧
     exitCodeOf ⟨[] ++ Task.mk 20 (some [padSub]) :: [Task.mk 20 (some subsAt12)]⟩ = 1 ∧
     finalFile ⟨[] ++ Task.mk 20 (some [padSub]) :: [Task.mk 20 (some subsAt12)]⟩ =
       ⟨[] ++ Task.mk 20 (some [padSub]) :: [Task.mk 20 (some subsAt12)]⟩) :=
  ⟨fun u hu => absurd hu (List.not_mem_nil u),
   rfl,
   fun s hs => by
     have hs' : s ∈ [padSub] := hs
     rw [List.mem_singleton] at hs'
     subst hs'
     decide,
   ⟨Task.mk 20 (some subsAt12), List.mem_singleton.mpr rfl, rfl,
    sub13, by simp [subsAt12], rfl⟩,
   C9_first_id20_shadows [] [Task.mk 20 (some subsAt12)] (Task.mk 20 (some [padSub]))
     (fun u hu => absurd hu (List.not_mem_nil u)) rfl
     (fun s hs => by
       have hs' : s ∈ [padSub] := hs
       rw [List.mem_singleton] at hs'
       subst hs'
       decide)⟩

/-- C5: running the program twice on the same starting document leaves
the same file as running it once; the replacement is a full overwrite,
so a second run finds the already-edited record and rewrites it
unchanged. -/
theorem C5_idempotent (d : Document) : finalFile (finalFile d) = finalFile d := by
  cases hr : run d with
  | notFound =>
    have hf : finalFile d = d := by simp [finalFile, hr]
    rw [hf]
    exact hf
  | indexError =>
    have hf : finalFile d = d := by simp [finalFile, hr]
    rw [hf]
    exact hf
  | success d' =>
    have hf : finalFile d = d' := by simp [finalFile, hr]
    have h2 := run_idem hr
    rw [hf]
    simp [finalFile, h2]

/-- C3: on every successful run the mutated record is written both at
the located position j and at the hard-coded index 12 of the owning
task's subtask list, so the two positions hold the same record and
whatever previously sat at index 12 is overwritten. -/
theorem C3_hardcoded_index12 (d : Document) (i : Nat) (t : Task) (j : Nat)
    (s : Subtask) (d' : Document)
    (hloc : locate d.tasks = some (i, t, j, s))
    (hrun : run d = RunResult.success d') :
    ∃ t', d'.tasks.get? i = some t' ∧
      (t'.subtasks.getD []).get? 12 = some (mutated s) ∧
      (t'.subtasks.getD []).get? j = some (mutated s) := by
  obtain ⟨i₂, t₂, j₂, s₂, hloc₂, hlen, hd⟩ := run_success_inv hrun
  rw [hloc] at hloc₂
  simp only [Option.some.injEq, Prod.mk.injEq] at hloc₂
  obtain ⟨hi, ht, hj, hs⟩ := hloc₂
  subst hi; subst ht; subst hj; subst hs
  subst hd
  obtain ⟨hT, hS, _⟩ := locate_spec hloc
  obtain ⟨hgi, _, _⟩ := findTask20_spec hT
  obtain ⟨hgj, _, _⟩ := findSub13_spec hS
  refine ⟨{ t with subtasks := some (editedSubs (t.subtasks.getD []) j s) }, ?_, ?_, ?_⟩
  · rw [successDoc_tasks]
    exact getq_set_self _ (getq_lt hgi)
  · show (editedSubs (t.subtasks.getD []) j s).get? 12 = some (mutated s)
    exact editedSubs_get_12 j s hlen
  · show (editedSubs (t.subtasks.getD []) j s).get? j = some (mutated s)
    exact editedSubs_get_j s (getq_lt hgj) hlen

/-- C3 witness: on the document holding subtask 13 at position 0,
positions 0 and 12 of the edited list both hold the mutated record. -/
theorem C3_witness :
    locate docJ0.tasks = some (0, Task.mk 20 (some subsAt0), 0, sub13) ∧
    run docJ0 = RunResult.success (finalFile docJ0) ∧
    (∃ t', (finalFile docJ0).tasks.get? 0 = some t' ∧
      (t'.subtasks.getD []).get? 12 = some (mutated sub13) ∧
      (t'.subtasks.getD []).get? 0 = some (mutated sub13)) :=
  ⟨rfl, rfl,
   C3_hardcoded_index12 docJ0 0 (Task.mk 20 (some subsAt0)) 0 sub13 (finalFile docJ0) rfl rfl⟩

/-- C6: on every successful run, every task other than the located
id-20 task is unchanged in the output (all of its fields), the located
task keeps its id, and every subtask of it other than the positions j
and 12 written by the replacement step is unchanged. -/
theorem C6_frame (d : Document) (i : Nat) (t : Task) (j : Nat)
    (s : Subtask) (d' : Document)
    (hloc : locate d.tasks = some (i, t, j, s))
    (hrun : run d = RunResult.success d') :
    d'.tasks.length = d.tasks.length ∧
    (∀ k, k ≠ i → d'.tasks.get? k = d.tasks.get? k) ∧
    ∃ t', d'.tasks.get? i = some t' ∧ t'.id = t.id ∧
      ∃ l', t'.subtasks = some l' ∧ l'.length = (t.subtasks.getD []).length ∧
        ∀ k, k ≠ j → k ≠ 12 → l'.get? k = (t.subtasks.getD []).get? k := by
  obtain ⟨i₂, t₂, j₂, s₂, hloc₂, hlen, hd⟩ := run_success_inv hrun
  rw [hloc] at hloc₂
  simp only [Option.some.injEq, Prod.mk.injEq] at hloc₂
  obtain ⟨hi, ht, hj, hs⟩ := hloc₂
  subst hi; subst ht; subst hj; subst hs
  subst hd
  obtain ⟨hT, _, _⟩ := locate_spec hloc
  obtain ⟨hgi, _, _⟩ := findTask20_spec hT
  refine ⟨?_, ?_, { t with subtasks := some (editedSubs (t.subtasks.getD []) j s) },
    ?_, rfl, editedSubs (t.subtasks.getD []) j s, rfl, editedSubs_length _ _ _,
    fun k hkj hk12 => editedSubs_get_other hkj hk12⟩
  · rw [successDoc_tasks, List.length_set]
  · intro k hk
    rw [successDoc_tasks]
    exact getq_set_ne _ i k _ (fun hc => hk hc.symm)
  · rw [successDoc_tasks]
    exact getq_set_self _ (getq_lt hgi)

/-- C6 witness: instantiated on the document with subtask 13 at
position 0 of task 20. -/
theorem C6_witness :
    locate docJ0.tasks = some (0, Task.mk 20 (some subsAt0), 0, sub13) ∧
    run docJ0 = RunResult.success (finalFile docJ0) ∧
    ((finalFile docJ0).tasks.length = docJ0.tasks.length ∧
     (∀ k, k ≠ 0 → (finalFile docJ0).tasks.get? k = docJ0.tasks.get? k) ∧
     ∃ t', (finalFile docJ0).tasks.get? 0 = some t' ∧
       t'.id = (Task.mk 20 (some subsAt0)).id ∧
       ∃ l', t'.subtasks = some l' ∧
         l'.length = ((Task.mk 20 (some subsAt0)).subtasks.getD []).length ∧
         ∀ k, k ≠ 0 → k ≠ 12 →
           l'.get? k = ((Task.mk 20 (some subsAt0)).subtasks.getD []).get? k) :=
  ⟨rfl, rfl,
   C6_frame docJ0 0 (Task.mk 20 (some subsAt0)) 0 sub13 (finalFile docJ0) rfl rfl⟩

/-- C10: on every successful run, the number of top-level tasks and the
length of the owning task's subtask list are preserved, and the record
stored at the located position keeps every field of the located subtask
except its subtasks field, which becomes exactly the nine new records. -/
theorem C10_no_records_added_or_removed (d : Document) (i : Nat) (t : Task)
    (j : Nat) (s : Subtask) (d' : Document)
    (hloc : locate d.tasks = some (i, t, j, s))
    (hrun : run d = RunResult.success d') :
    d'.tasks.length = d.tasks.length ∧
    ∃ t', d'.tasks.get? i = some t' ∧
      ∃ l', t'.subtasks = some l' ∧ l'.length = (t.subtasks.getD []).length ∧
        ∃ s', l'.get? j = some s' ∧ s'.id = s.id ∧ s'.title = s.title ∧
          s'.description = s.description ∧ s'.status = s.status ∧
          s'.priority = s.priority ∧ s'.dependencies = s.dependencies ∧
          s'.details = s.details ∧ s'.testStrategy = s.testStrategy ∧
          s'.subtasks = some newSubtasks := by
  obtain ⟨i₂, t₂, j₂, s₂, hloc₂, hlen, hd⟩ := run_success_inv hrun
  rw [hloc] at hloc₂
  simp only [Option.some.injEq, Prod.mk.injEq] at hloc₂
  obtain ⟨hi, ht, hj, hs⟩ := hloc₂
  subst hi; subst ht; subst hj; subst hs
  subst hd
  obtain ⟨hT, hS, _⟩ := locate_spec hloc
  obtain ⟨hgi, _, _⟩ := findTask20_spec hT
  obtain ⟨hgj, _, _⟩ := findSub13_spec hS
  refine ⟨?_, { t with subtasks := some (editedSubs (t.subtasks.getD []) j s) },
    ?_, editedSubs (t.subtasks.getD []) j s, rfl, editedSubs_length _ _ _,
    mutated s, ?_, setSubtasks_id s _, setSubtasks_title s _,
    setSubtasks_description s _, setSubtasks_status s _, setSubtasks_priority s _,
    setSubtasks_dependencies s _, setSubtasks_details s _,
    setSubtasks_testStrategy s _, setSubtasks_subtasks s _⟩
  · rw [successDoc_tasks, List.length_set]
  · rw [successDoc_tasks]
    exact getq_set_self _ (getq_lt hgi)
  · exact editedSubs_get_j s (getq_lt hgj) hlen

/-- C10 witness: instantiated on the document with subtask 13 at
position 0 of task 20. -/
theorem C10_witness :
    locate docJ0.tasks = some (0, Task.mk 20 (some subsAt0), 0, sub13) ∧
    run docJ0 = RunResult.success (finalFile docJ0) ∧
    ((finalFile docJ0).tasks.length = docJ0.tasks.length ∧
     ∃ t', (finalFile docJ0).tasks.get? 0 = some t' ∧
       ∃ l', t'.subtasks = some l' ∧
         l'.length = ((Task.mk 20 (some subsAt0)).subtasks.getD []).length ∧
         ∃ s', l'.get? 0 = some s' ∧ s'.id = sub13.id ∧ s'.title = sub13.title ∧
           s'.description = sub13.description ∧ s'.status = sub13.status ∧
           s'.priority = sub13.priority ∧ s'.dependencies = sub13.dependencies ∧
           s'.details = sub13.details ∧ s'.testStrategy = sub13.testStrategy ∧
           s'.subtasks = some newSubtasks) :=
  ⟨rfl, rfl,
   C10_no_records_added_or_removed docJ0 0 (Task.mk 20 (some subsAt0)) 0 sub13
     (finalFile docJ0) rfl rfl⟩

/-- The eleven stdout lines of a successful run, written out literally:
the banner, the blank-prefixed heading, and one line per injected record
with the dependency annotation exactly when the record has
dependencies. -/
def expectedSuccessLines : List String :=
  ["✅ Successfully added 9 subtasks to Task 20.13",
   "\nSubtasks added:",
   "  20.13.1 - View Switching Infrastructure",
   "  20.13.2 - View-Specific Filtering UI (depends on: 1)",
   "  20.13.3 - Drag & Drop Infrastructure",
   "  20.13.4 - Gallery View Implementation (depends on: 1)",
   "  20.13.5 - Kanban View Implementation (depends on: 1, 3)",
   "  20.13.6 - Calendar View Implementation (depends on: 1, 2)",
   "  20.13.7 - Timeline View Implementation (depends on: 1, 2)",
   "  20.13.8 - View Performance Optimization (depends on: 4, 5, 6, 7)",
   "  20.13.9 - View Testing & Integration (depends on: 8)"]

/-- C7: on success the program prints the success summary followed by
exactly nine per-record lines; records with dependencies get the
parenthetical annotation, the two without dependencies (1 and 3) do
not. -/
theorem C7_success_output (d : Document) (d' : Document)
    (h : run d = RunResult.success d') :
    outputOf d = expectedSuccessLines ∧
    (newSubtasks.map subtaskLine).length = 9 ∧
    expectedSuccessLines.length = 2 + 9 := by
  have ho : outputOf d = successOutput := by simp [outputOf, h]
  rw [ho]
  exact ⟨rfl, rfl, rfl⟩

/-- C7 witness: the concrete successful document produces exactly the
expected lines. -/
theorem C7_witness :
    run docOK = RunResult.success (finalFile docOK) ∧
    (outputOf docOK = expectedSuccessLines ∧
     (newSubtasks.map subtaskLine).length = 9 ∧
     expectedSuccessLines.length = 2 + 9) :=
  ⟨rfl, C7_success_output docOK (finalFile docOK) rfl⟩

/-- C8: on every successful run the trace holds exactly one read and
one write, both of the same fixed path, and the write stores the full
final document with indent width 2. -/
theorem C8_read_once_write_once (d : Document) (d' : Document)
    (h : run d = RunResult.success d') :
    traceOf d = [FileOp.read tasks_file, FileOp.write tasks_file d' 2] ∧
    tasks_file = ".taskmaster/tasks/tasks.json" ∧
    (traceOf d).countP (fun op => match op with | FileOp.read _ => true | _ => false) = 1 ∧
    (traceOf d).countP (fun op => match op with | FileOp.write _ _ _ => true | _ => false) = 1 := by
  have ht : traceOf d = [FileOp.read tasks_file, FileOp.write tasks_file d' 2] := by
    simp [traceOf, h]
  refine ⟨ht, rfl, ?_, ?_⟩ <;> rw [ht] <;> rfl

/-- C8 witness: the concrete successful document is read once and
written once at the fixed path. -/
theorem C8_witness :
    run docOK = RunResult.success (finalFile docOK) ∧
    (traceOf docOK = [FileOp.read tasks_file, FileOp.write tasks_file (finalFile docOK) 2] ∧
     tasks_file = ".taskmaster/tasks/tasks.json" ∧
     (traceOf docOK).countP (fun op => match op with | FileOp.read _ => true | _ => false) = 1 ∧
     (traceOf docOK).countP (fun op => match op with | FileOp.write _ _ _ => true | _ => false) = 1) :=
  ⟨rfl, C8_read_once_write_once docOK (finalFile docOK) rfl⟩

/-- C1 counterexample: docDup contains a task with id 20 whose subtask
list has the id-13 record at position 12 (its second task), yet the run
takes the error path and writes nothing, because the outer loop stops at
the first id-20 task, which lacks a subtask 13. -/
theorem C1_counterexample :
    (∃ t, t ∈ docDup.tasks ∧ t.id = 20 ∧
      ∃ e, (t.subtasks.getD []).get? 12 = some e ∧ e.id = 13) ∧
    run docDup = RunResult.notFound ∧ finalFile docDup = docDup := by
  refine ⟨⟨Task.mk 20 (some subsAt12), ?_, rfl, sub13, rfl, rfl⟩, rfl, rfl⟩
  show Task.mk 20 (some subsAt12) ∈
    [Task.mk 20 (some [padSub]), Task.mk 20 (some subsAt12)]
  exact List.mem_cons_of_mem _ (List.mem_cons_self _ _)

/-- C1 (amended to the first id-20 task): whenever the first task with
id 20 holds an id-13 element at position 12 of its subtask list, the run
succeeds and in the output that task's element at position 12 has its
subtasks field equal to exactly the nine literal records, whose ids are
1 through 9 and whose fifth record is the Kanban one with dependencies
1 and 3. -/
theorem C1_amended_first_task20 (d : Document) (i : Nat) (t : Task)
    (hT : findTask20 d.tasks = some (i, t))
    (h12 : ∃ e, (t.subtasks.getD []).get? 12 = some e ∧ e.id = 13) :
    ∃ d' t' s', run d = RunResult.success d' ∧
      d'.tasks.get? i = some t' ∧
      (t'.subtasks.getD []).get? 12 = some s' ∧
      s'.id = 13 ∧ s'.subtasks = some newSubtasks ∧
      newSubtasks.map Subtask.id = [1, 2, 3, 4, 5, 6, 7, 8, 9] ∧
      (newSubtasks.get? 4).map Subtask.title = some "Kanban View Implementation" ∧
      (newSubtasks.get? 4).map Subtask.dependencies = some [1, 3] := by
  obtain ⟨e, he, hid⟩ := h12
  have hlen : 12 < (t.subtasks.getD []).length := getq_lt he
  obtain ⟨j, s, hf⟩ := findSub13_isSome he hid
  have hloc := locate_eq hT hf
  obtain ⟨hgj, hs13, _⟩ := findSub13_spec hf
  obtain ⟨hgi, _, _⟩ := findTask20_spec hT
  refine ⟨successDoc d i t j s,
    { t with subtasks := some (editedSubs (t.subtasks.getD []) j s) },
    mutated s, run_success_eq hloc hlen, ?_, ?_, ?_, setSubtasks_subtasks s _,
    rfl, rfl, rfl⟩
  · rw [successDoc_tasks]
    exact getq_set_self _ (getq_lt hgi)
  · show (editedSubs (t.subtasks.getD []) j s).get? 12 = some (mutated s)
    exact editedSubs_get_12 j s hlen
  · rw [mutated_id]
    exact hs13

/-- C1 witness: docOK has its first id-20 task at index 1 with the id-13
record at position 12; the amended claim holds there. -/
theorem C1_witness :
    findTask20 docOK.tasks = some (1, Task.mk 20 (some subsAt12)) ∧
    (∃ e, ((Task.mk 20 (some subsAt12)).subtasks.getD []).get? 12 = some e ∧
      e.id = 13) ∧
    (∃ d' t' s', run docOK = RunResult.success d' ∧
      d'.tasks.get? 1 = some t' ∧
      (t'.subtasks.getD []).get? 12 = some s' ∧
      s'.id = 13 ∧ s'.subtasks = some newSubtasks ∧
      newSubtasks.map Subtask.id = [1, 2, 3, 4, 5, 6, 7, 8, 9] ∧
      (newSubtasks.get? 4).map Subtask.title = some "Kanban View Implementation" ∧
      (newSubtasks.get? 4).map Subtask.dependencies = some [1, 3]) :=
  ⟨rfl, ⟨sub13, rfl, rfl⟩,
   C1_amended_first_task20 docOK 1 (Task.mk 20 (some subsAt12)) rfl ⟨sub13, rfl, rfl⟩⟩

/-- C4 counterexample: docDup contains a task with id 20 that has a
subtask with id 13, yet the locator signals not-found and the run takes
the error path, because only the first id-20 task is inspected. -/
theorem C4_counterexample :
    (∃ t, t ∈ docDup.tasks ∧ t.id = 20 ∧
      ∃ s, s ∈ t.subtasks.getD [] ∧ s.id = 13) ∧
    locate docDup.tasks = none ∧ run docDup = RunResult.notFound := by
  refine ⟨⟨Task.mk 20 (some subsAt12), ?_, rfl, sub13, ?_, rfl⟩, rfl, rfl⟩
  · show Task.mk 20 (some subsAt12) ∈
      [Task.mk 20 (some [padSub]), Task.mk 20 (some subsAt12)]
    exact List.mem_cons_of_mem _ (List.mem_cons_self _ _)
  · show sub13 ∈ subsAt12
    simp [subsAt12]

/-- C4 (amended to the first id-20 task): whenever the first task with
id 20 contains a subtask with id 13, the locator returns the first
matching subtask record together with the owning task's index, and the
run does not take the not-found error path. -/
theorem C4_locator_amended (d : Document) (i : Nat) (t : Task)
    (hT : findTask20 d.tasks = some (i, t))
    (hS : ∃ s0, s0 ∈ t.subtasks.getD [] ∧ s0.id = 13) :
    ∃ j s, locate d.tasks = some (i, t, j, s) ∧
      d.tasks.get? i = some t ∧ t.id = 20 ∧
      (t.subtasks.getD []).get? j = some s ∧ s.id = 13 ∧
      run d ≠ RunResult.notFound := by
  obtain ⟨s0, hmem, hid⟩ := hS
  obtain ⟨m, hm⟩ := List.get?_of_mem hmem
  obtain ⟨j, s, hf⟩ := findSub13_isSome hm hid
  have hl := locate_eq hT hf
  obtain ⟨hg, hid13, _⟩ := findSub13_spec hf
  obtain ⟨hgi, ht20, _⟩ := findTask20_spec hT
  refine ⟨j, s, hl, hgi, ht20, hg, hid13, ?_⟩
  intro hc
  rw [run_notFound_iff] at hc
  rw [hl] at hc
  exact Option.noConfusion hc

/-- C4 witness: on docOK the first id-20 task holds subtask 13, the
locator succeeds and the error path is avoided. -/
theorem C4_witness :
    findTask20 docOK.tasks = some (1, Task.mk 20 (some subsAt12)) ∧
    (∃ s0, s0 ∈ (Task.mk 20 (some subsAt12)).subtasks.getD [] ∧ s0.id = 13) ∧
    (∃ j s, locate docOK.tasks = some (1, Task.mk 20 (some subsAt12), j, s) ∧
      docOK.tasks.get? 1 = some (Task.mk 20 (some subsAt12)) ∧
      (Task.mk 20 (some subsAt12)).id = 20 ∧
      ((Task.mk 20 (some subsAt12)).subtasks.getD []).get? j = some s ∧
      s.id = 13 ∧
      run docOK ≠ RunResult.notFound) :=
  ⟨rfl, ⟨sub13, (by simp [subsAt12] : sub13 ∈ subsAt12), rfl⟩,
   C4_locator_amended docOK 1 (Task.mk 20 (some subsAt12)) rfl
     ⟨sub13, (by simp [subsAt12] : sub13 ∈ subsAt12), rfl⟩⟩

end AddViewSubtasks
